import Mathlib

/-!
Verification development for django-tinycart: a shopping-cart pricing
engine.  The repository ships its test suite (`tinycart/tests/test_models.py`)
and presentation layer (`tinycart/views.py`); the engine itself
(`tinycart/models.py`, the modifier loader and the test fixture models) is
not among the provided source files, so those parts are modelled from the
specification, with every concrete behaviour pinned down by the assertions
of the repository's own tests.  Money is modelled as exact rationals
(`Rat`), matching Python's `Decimal` on the values that occur here.
-/

namespace Tinycart

/-- Modelled from the spec: the product capability contract (spec section 3
and section 6) together with the test fixture models `Book` and `Shirt`
(`tinycart/tests/models.py`, absent from the sources).  A product exposes a
unit price, an availability flag and a stock figure; `none` stock means the
unlimited sentinel.  `is_book` records the concrete product class, which the
item modifier `every_second_book_is_for_free` dispatches on. -/
structure Product where
  id : Nat
  price : Rat
  is_available : Bool
  storage_on_hand : Option Nat
  is_book : Bool
deriving Repr, DecidableEq

/-- Modelled from the spec: a cart item is one product reference plus a
quantity and a held flag (spec section 3). -/
structure CartItem where
  product : Product
  quantity : Nat
  is_held : Bool
deriving Repr, DecidableEq

/-- Modelled from the spec: `is_available` is a pure pass-through predicate
on the referenced product (spec section 4.2). -/
def CartItem.is_available (i : CartItem) : Bool :=
  i.product.is_available

/-- Modelled from the spec: `is_in_stock` is true when stock is unlimited or
positive (spec section 3), matching `test_cart_item_is_in_stock`. -/
def CartItem.is_in_stock (i : CartItem) : Bool :=
  match i.product.storage_on_hand with
  | none => true
  | some n => n != 0

/-- Modelled from the spec: an item modifier is a named callable receiving
the cart item and the running price (spec section 4.1). -/
structure ItemModifier where
  name : String
  apply : CartItem → Rat → Rat

/-- Modelled from the spec: a cart modifier is a named callable receiving
the cart's items and the running price (spec section 4.1). -/
structure CartModifier where
  name : String
  apply : List CartItem → Rat → Rat

/-- Modelled from the spec: `CartItem.get_price` is the item's base price
`unit_price * quantity`, zero when the product is unavailable (spec
section 4.2).  The repository's tests show that, contrary to the spec's
wording, no item modifier is applied here: with the every-second-book-free
modifier configured, `test_cart_item_price` asserts a quantity-3 book has
`get_price() == 10.50`, the plain base price. -/
def CartItem.get_price (i : CartItem) : Rat :=
  if i.is_available then i.product.price * (i.quantity : Rat) else 0

/-- Modelled from the spec: `CartItem.get_total_price` returns 0 for a held
item and otherwise folds the ordered item-modifier chain over
`get_price` — `test_cart_item_total_price` asserts quantity 2 gives 3.50
and quantity 3 gives 7.00 under the every-second-book-free modifier, so
the modifier fold lives here, not in `get_price`. -/
def CartItem.get_total_price (imods : List ItemModifier) (i : CartItem) : Rat :=
  if i.is_held then 0
  else imods.foldl (fun p m => m.apply i p) i.get_price

/-- Modelled from the spec: the cart record.  `items` is the owned item
collection held by the storage collaborator; `cached_items` is the lazily
populated request-scoped snapshot (`none` = not yet populated);
`price_memo` is the memoised aggregate price; `modifiers` is the
applied-modifier trace of the last aggregate computation (spec section 3). -/
structure Cart where
  pk : Nat
  user : Option Nat
  items : List CartItem
  cached_items : Option (List CartItem)
  price_memo : Option Rat
  modifiers : List String
deriving Repr, DecidableEq

/-- Modelled from the spec: reading `cached_items` populates the snapshot
from the owned collection on first access and returns the cached snapshot
thereafter (spec section 4.3). -/
def Cart.read_cached_items (c : Cart) : List CartItem × Cart :=
  match c.cached_items with
  | some l => (l, c)
  | none => (c.items, { c with cached_items := some c.items })

/-- Modelled from the spec: `reset_cached_items` re-populates the snapshot
from the owned collection (spec section 4.3); the derived price memo is
dropped along with the stale snapshot, as required for `add` to make new
items visible to subsequent `get_price` calls (`test_cart_price`). -/
def Cart.reset_cached_items (c : Cart) : Cart :=
  { c with cached_items := some c.items, price_memo := none }

/-- Modelled from the spec: a raw storage-level item creation
(`cart.items.create(...)` in `test_reset_cached_items`), which bypasses
`add` and therefore does not touch the snapshot. -/
def Cart.items_create (c : Cart) (p : Product) (quantity : Nat) : Cart :=
  { c with items := c.items ++ [{ product := p, quantity := quantity, is_held := false }] }

/-- Modelled from the spec: `add` increments the existing item for the
product in place, or appends a fresh item, then refreshes the snapshot
(spec section 4.3, `test_cart_add`).  Returns the created or updated item
together with the updated cart. -/
def Cart.add (c : Cart) (p : Product) (quantity : Nat) : CartItem × Cart :=
  match c.items.find? (fun i => i.product.id == p.id) with
  | some item =>
    let item2 : CartItem := { item with quantity := item.quantity + quantity }
    let items2 := c.items.map (fun i => if i.product.id == p.id then item2 else i)
    (item2, Cart.reset_cached_items { c with items := items2 })
  | none =>
    let item2 : CartItem := { product := p, quantity := quantity, is_held := false }
    (item2, Cart.reset_cached_items { c with items := c.items ++ [item2] })

/-- Modelled from the spec: `clear` removes all owned items and empties the
snapshot and the modifier trace (spec section 4.3). -/
def Cart.clear (c : Cart) : Cart :=
  { c with items := [], cached_items := some [], price_memo := none, modifiers := [] }

/-- Modelled from the spec: one item's contribution to the cart aggregate.
The tests pin the filter: an unavailable item contributes 0
(`test_cart_price`, 45.00 unchanged) and an available but zero-stock item
also contributes 0 (`test_cart_price`, 45.00 unchanged again), so the
aggregate sums `get_total_price` over available, in-stock items only. -/
def Cart.item_contribution (imods : List ItemModifier) (i : CartItem) : Rat :=
  if i.is_available && i.is_in_stock then CartItem.get_total_price imods i else 0

/-- Modelled from the spec: `Cart.get_price` short-circuits to 0 with no
cached items, otherwise returns the memoised sum of item contributions
(spec section 4.3).  The repository's tests show that, contrary to the
spec's wording, no cart modifier is applied here: with the 10% discount
modifier configured, `test_cart_price` asserts items summing to 45.00 give
`get_price() == 45.00`.  The result triple is (price, updated cart, number
of storage reads performed), the read count instrumenting the memoisation
contract of `test_cart_price_queries_count`. -/
def Cart.get_price (imods : List ItemModifier) (c : Cart) : Rat × Cart × Nat :=
  let r := c.read_cached_items
  if r.1.isEmpty then (0, r.2, 0)
  else
    match r.2.price_memo with
    | some v => (v, r.2, 0)
    | none =>
      let v := r.1.foldl (fun acc i => acc + Cart.item_contribution imods i) 0
      (v, { r.2 with price_memo := some v }, r.1.length)

/-- Modelled from the spec: `Cart.get_total_price` short-circuits to 0 with
no cached items (no modifier invocation), otherwise folds the ordered
cart-modifier chain over `get_price`, rebuilding the `modifiers` trace with
one entry per applied modifier — `test_cart_clear` asserts
`get_price() == 13.50` but `get_total_price() == 12.15` and a one-entry
trace with the 10% modifier configured, so the cart-modifier fold lives
here, not in `get_price`. -/
def Cart.get_total_price (cmods : List CartModifier) (imods : List ItemModifier)
    (c : Cart) : Rat × Cart :=
  let r := c.read_cached_items
  if r.1.isEmpty then (0, r.2)
  else
    let q := Cart.get_price imods r.2
    let folded := cmods.foldl
      (fun acc m => (m.apply r.1 acc.1, acc.2 ++ [m.name])) (q.1, ([] : List String))
    (folded.1, { q.2.1 with modifiers := folded.2 })

/-- Modelled from the spec: the cart-modifier fixture
`tinycart.tests.cart_modifiers.ten_percent_discount` (absent from the
sources) — `test_cart_total_price` maps 3.50 to 3.15 and `test_cart_clear`
maps 13.50 to 12.15, a 10% discount on the subtotal. -/
def ten_percent_discount : CartModifier :=
  { name := "ten_percent_discount", apply := fun _ p => p - p / 10 }

/-- Modelled from the spec: the item-modifier fixture
`tinycart.tests.cart_modifiers.every_second_book_is_for_free` (absent from
the sources) — `test_cart_item_total_price` maps a book item of quantity 1,
2, 3 to 3.50, 3.50, 7.00: every second unit of a book is free, i.e. the
unit price times `quantity / 2` (integer division) is deducted. -/
def every_second_book_is_for_free : ItemModifier :=
  { name := "every_second_book_is_for_free",
    apply := fun i p =>
      if i.product.is_book then p - i.product.price * ((i.quantity / 2 : Nat) : Rat)
      else p }

/-- Modelled from the spec: the `Book` test fixture — unit price 3.50
(`test_cart_item_price`), configurable availability and stock. -/
def mkBook (id : Nat) (avail : Bool) (storage : Nat) : Product :=
  { id := id, price := 7 / 2, is_available := avail,
    storage_on_hand := some storage, is_book := true }

/-- Modelled from the spec: the `Shirt` test fixture — unit price 10.00
(`test_cart_price`, 35.00 to 45.00), always available, unlimited stock. -/
def mkShirt (id : Nat) : Product :=
  { id := id, price := 10, is_available := true,
    storage_on_hand := none, is_book := false }

/-- A fresh cart record as the resolver creates it. -/
def new_cart (pk : Nat) (user : Option Nat) : Cart :=
  { pk := pk, user := user, items := [], cached_items := none,
    price_memo := none, modifiers := [] }

/-- Modelled from the spec: the storage collaborator for cart records
(spec section 6) — a list of stored carts plus the next fresh primary
key. -/
structure Store where
  carts : List Cart
  next_pk : Nat
deriving Repr

/-- Look a cart up by its opaque identifier. -/
def Store.find_by_pk (s : Store) (pk : Nat) : Option Cart :=
  s.carts.find? (fun c => c.pk == pk)

/-- Look a cart up by its owning identity. -/
def Store.find_by_user (s : Store) (u : Nat) : Option Cart :=
  s.carts.find? (fun c => c.user == some u)

/-- Create and persist a fresh cart for the given (optional) owner. -/
def Store.create (s : Store) (user : Option Nat) : Cart × Store :=
  let c := new_cart s.next_pk user
  (c, { carts := s.carts ++ [c], next_pk := s.next_pk + 1 })

/-- Persist an ownership change on the cart with the given identifier. -/
def Store.save_user (s : Store) (pk : Nat) (u : Nat) : Store :=
  { s with carts := s.carts.map (fun c => if c.pk == pk then { c with user := some u } else c) }

/-- Modelled from the spec: the session collaborator holds at most the one
cart-identifier key (spec section 6). -/
structure Session where
  cart : Option Nat
deriving Repr, DecidableEq

/-- Modelled from the spec: the cart resolver `Cart.objects.get_for_request`
(spec section 4.4), a five-rule state machine over the requesting actor.
Returns the resolved cart, the updated store and the updated session. -/
def get_for_request (s : Store) (user : Option Nat) (sess : Session) :
    Cart × Store × Session :=
  match user with
  | none =>
    match sess.cart with
    | some pk =>
      match s.find_by_pk pk with
      | some c => (c, s, sess)
      | none =>
        let r := s.create none
        (r.1, r.2, { cart := some r.1.pk })
    | none =>
      let r := s.create none
      (r.1, r.2, { cart := some r.1.pk })
  | some u =>
    match s.find_by_user u with
    | some c => (c, s, { cart := none })
    | none =>
      match sess.cart with
      | some pk =>
        match s.find_by_pk pk with
        | some c =>
          let c2 : Cart := { c with user := some u }
          (c2, s.save_user pk u, { cart := none })
        | none =>
          let r := s.create (some u)
          (r.1, r.2, { cart := none })
      | none =>
        let r := s.create (some u)
        (r.1, r.2, { cart := none })

/-- The presentation-layer partition of `CartItemList.get_context_data`
(`tinycart/views.py`): each item of the object list is appended to the held
list when available and held, to the available list when available and not
held, and to the unavailable list otherwise.  Returns
(available, unavailable, held) in that order. -/
def get_context_data (items : List CartItem) :
    List CartItem × List CartItem × List CartItem :=
  items.foldl
    (fun ctx i =>
      if i.is_available then
        if i.is_held then (ctx.1, ctx.2.1, ctx.2.2 ++ [i])
        else (ctx.1 ++ [i], ctx.2.1, ctx.2.2)
      else (ctx.1, ctx.2.1 ++ [i], ctx.2.2))
    ([], [], [])

/-- The cart items currently stored for the given product. -/
def product_items (c : Cart) (p : Product) : List CartItem :=
  c.items.filter (fun i => i.product.id == p.id)

/-!  Concrete fixtures mirroring the repository's test scenarios. -/

/-- The cart of `test_cart_price` after the first two adds: a quantity-10
in-stock book and a shirt, items summing to 45.00. -/
def cart45 : Cart :=
  (((new_cart 0 none).add (mkBook 1 true 10) 10).2.add (mkShirt 2) 1).2

/-- The owned items of `cart45`. -/
def items45 : List CartItem := cart45.items

/-- The cart of `test_cart_clear` before clearing: one in-stock book and
one shirt, items summing to 13.50. -/
def cart1350 : Cart :=
  (((new_cart 0 none).add (mkBook 1 true 10) 1).2.add (mkShirt 2) 1).2

/-- A quantity-3 book item, as in `test_cart_item_price` and
`test_cart_item_total_price`. -/
def book_item3 : CartItem :=
  { product := mkBook 1 true 0, quantity := 3, is_held := false }

/-- An available book item whose product has zero stock. -/
def zero_stock_item : CartItem :=
  { product := mkBook 1 true 0, quantity := 1, is_held := false }

/-- A cart holding exactly `zero_stock_item`. -/
def zero_stock_cart : Cart := ((new_cart 0 none).add (mkBook 1 true 0) 1).2

/-- An item whose product is unavailable. -/
def unavailable_item : CartItem :=
  { product := mkBook 1 false 10, quantity := 2, is_held := false }

/-!  Helper lemmas shared by the claim theorems. -/

/-- The price component of the trace-recording cart-modifier fold is the
plain fold of the modifier functions. -/
theorem foldl_apply_trace_fst (cmods : List CartModifier) (items : List CartItem)
    (p : Rat) (tr : List String) :
    (cmods.foldl (fun acc m => (m.apply items acc.1, acc.2 ++ [m.name])) (p, tr)).1
      = cmods.foldl (fun q m => m.apply items q) p := by
  induction cmods generalizing p tr with
  | nil => rfl
  | cons m ms ih => simp only [List.foldl_cons]; exact ih _ _

/-- C1 (counterexample): contrary to the claim, `Cart.get_price` does not
fold the cart-modifier chain over the item subtotal.  At the concrete cart
whose items sum to 45.00 with the single 10% discount cart modifier
configured, `get_price` returns 45.00, while the configured chain folded
over that subtotal gives 40.50, and the two differ — exactly the situation
of `test_cart_price`, which asserts 45.00. -/
theorem cart_price_ignores_cart_modifiers_cex :
    (Cart.get_price [] cart45).1 = 45
      ∧ [ten_percent_discount].foldl (fun q m => m.apply items45 q)
          (Cart.get_price [] cart45).1 = 81 / 2
      ∧ ((45 : Rat) ≠ 81 / 2) := by
  refine ⟨?_, ?_, by norm_num⟩ <;>
    norm_num [cart45, items45, Cart.get_price, Cart.add, Cart.reset_cached_items,
      new_cart, mkBook, mkShirt, Cart.read_cached_items, Cart.item_contribution,
      CartItem.get_total_price, CartItem.get_price, CartItem.is_available,
      CartItem.is_in_stock, ten_percent_discount]

/-- C1 (amended): for every cart with a populated, nonempty item snapshot,
`Cart.get_total_price` — not `get_price` — returns the ordered
cart-modifier chain folded over `Cart.get_price`, the memoised sum of the
cached items' contributions; with the 10% discount modifier and items
summing to 45.00, `get_total_price` returns 40.50 while `get_price`
returns 45.00. -/
theorem cart_total_price_folds_modifier_chain (cmods : List CartModifier)
    (imods : List ItemModifier) (c : Cart) (items : List CartItem)
    (h1 : c.cached_items = some items) (h2 : items ≠ []) :
    (Cart.get_total_price cmods imods c).1
      = cmods.foldl (fun q m => m.apply items q) (Cart.get_price imods c).1 := by
  unfold Cart.get_total_price
  simp only [Cart.read_cached_items, h1]
  rw [if_neg (by simpa using h2)]
  simpa using foldl_apply_trace_fst cmods items (Cart.get_price imods c).1 []

/-- Witness for C1: the amended claim evaluated at the concrete cart whose
items sum to 45.00, with the 10% discount chain, gives 40.50. -/
theorem cart_total_price_folds_modifier_chain_witness :
    (Cart.get_total_price [ten_percent_discount] [] cart45).1 = 81 / 2 := by
  have h := cart_total_price_folds_modifier_chain [ten_percent_discount] [] cart45
    items45 rfl (by
      simp [items45, cart45, Cart.add, Cart.reset_cached_items, new_cart, mkBook, mkShirt])
  rw [h]
  norm_num [cart45, items45, Cart.get_price, Cart.add, Cart.reset_cached_items,
    new_cart, mkBook, mkShirt, Cart.read_cached_items, Cart.item_contribution,
    CartItem.get_total_price, CartItem.get_price, CartItem.is_available,
    CartItem.is_in_stock, ten_percent_discount]

/-- C2 (counterexample): contrary to the claim, `CartItem.get_price` does
not fold the item-modifier chain over the base price: at a quantity-3 book
item of unit price 3.50 it returns the plain base price 10.50, not the
claimed 7.00 — exactly the situation of `test_cart_item_price`, which
asserts 10.50. -/
theorem cart_item_price_ignores_item_modifiers_cex :
    CartItem.get_price book_item3 = 21 / 2
      ∧ every_second_book_is_for_free.apply book_item3 (21 / 2) = 7
      ∧ ((21 : Rat) / 2 ≠ 7) := by
  refine ⟨?_, ?_, by norm_num⟩ <;>
    norm_num [book_item3, CartItem.get_price, CartItem.is_available, mkBook,
      every_second_book_is_for_free]

/-- C2 (amended): for every non-held cart item, `CartItem.get_total_price`
— not `get_price` — returns the ordered item-modifier chain folded over
`get_price`, where `get_price` is the plain base price
`unit_price * quantity` when the product is available and 0 otherwise;
with the every-second-unit-free modifier, a quantity-3 item of unit price
3.50 has `get_total_price` 7.00 (its `get_price` being 10.50). -/
theorem cart_item_total_price_folds_item_modifiers (imods : List ItemModifier)
    (i : CartItem) :
    (i.is_held = false → CartItem.get_total_price imods i
        = imods.foldl (fun q m => m.apply i q) i.get_price)
      ∧ (i.is_available = true → i.get_price = i.product.price * (i.quantity : Rat))
      ∧ (i.is_available = false → i.get_price = 0) := by
  refine ⟨fun h => ?_, fun h => ?_, fun h => ?_⟩ <;>
    simp [CartItem.get_total_price, CartItem.get_price, h]

/-- Witness for C2: the amended claim evaluated at the quantity-3 book item
with the every-second-book-free chain gives 7.00 for `get_total_price`. -/
theorem cart_item_total_price_folds_item_modifiers_witness :
    CartItem.get_total_price [every_second_book_is_for_free] book_item3 = 7 := by
  have h := (cart_item_total_price_folds_item_modifiers
    [every_second_book_is_for_free] book_item3).1 rfl
  rw [h]
  norm_num [book_item3, CartItem.get_price, CartItem.is_available, mkBook,
    every_second_book_is_for_free]

/-- C3 (counterexample): contrary to the claim, `Cart.get_total_price` and
`Cart.get_price` are not aliases: at the concrete cart of `test_cart_clear`
(an in-stock book and a shirt) with the 10% discount modifier configured,
`get_price` returns 13.50 while `get_total_price` returns 12.15 — the two
values the test itself asserts. -/
theorem cart_total_price_not_alias_cex :
    (Cart.get_price [] cart1350).1 = 27 / 2
      ∧ (Cart.get_total_price [ten_percent_discount] [] cart1350).1 = 243 / 20
      ∧ ((27 : Rat) / 2 ≠ 243 / 20) := by
  refine ⟨?_, ?_, by norm_num⟩ <;>
    norm_num [cart1350, Cart.get_total_price, Cart.get_price, Cart.add,
      Cart.reset_cached_items, new_cart, mkBook, mkShirt, Cart.read_cached_items,
      Cart.item_contribution, CartItem.get_total_price, CartItem.get_price,
      CartItem.is_available, CartItem.is_in_stock, ten_percent_discount]

/-- C3 (amended): `Cart.get_total_price` is the cart-modifier chain folded
over `Cart.get_price`, so the two operations agree in every cart state
exactly when no cart modifier is configured (the empty chain); with a
modifier configured they diverge (13.50 against 12.15 above). -/
theorem cart_total_price_alias_of_empty_chain (imods : List ItemModifier) (c : Cart) :
    (Cart.get_total_price [] imods c).1 = (Cart.get_price imods c).1 := by
  unfold Cart.get_total_price Cart.get_price
  cases hc : c.cached_items with
  | some l =>
    simp only [Cart.read_cached_items, hc]
    cases hl : l.isEmpty <;> simp [Cart.get_price, Cart.read_cached_items, hc, hl]
  | none =>
    simp only [Cart.read_cached_items, hc]
    cases hl : c.items.isEmpty <;>
      simp [Cart.get_price, Cart.read_cached_items, hc, hl]

/-- C4 (counterexample): contrary to the claim's second half, an available
product with zero stock does not contribute its full price to the cart
aggregate: the item prices normally at the item level (3.50 here) yet the
cart holding only that item has aggregate price 0 — exactly the situation
of `test_cart_price`, where adding a zero-stock book leaves the aggregate
at 45.00. -/
theorem zero_stock_not_in_aggregate_cex :
    CartItem.get_total_price [] zero_stock_item = 7 / 2
      ∧ (Cart.get_price [] zero_stock_cart).1 = 0
      ∧ ((7 : Rat) / 2 ≠ 0) := by
  refine ⟨?_, ?_, by norm_num⟩ <;>
    norm_num [zero_stock_item, zero_stock_cart, Cart.get_price, Cart.add,
      Cart.reset_cached_items, new_cart, mkBook, Cart.read_cached_items,
      Cart.item_contribution, CartItem.get_total_price, CartItem.get_price,
      CartItem.is_available, CartItem.is_in_stock]

/-- C4 (amended): availability and stock are independent predicates, but
they act at different levels: an unavailable product contributes 0 to its
item price and to the cart aggregate, while an available zero-stock
product still prices normally at the item level (`get_total_price` ignores
stock entirely) yet contributes 0 to the cart aggregate, which sums only
items that are both available and in stock. -/
theorem availability_and_stock_independent (imods : List ItemModifier) (i : CartItem) :
    (i.is_available = false → i.get_price = 0 ∧ Cart.item_contribution imods i = 0)
      ∧ (i.is_available = true → i.is_in_stock = false →
          CartItem.get_total_price imods i
              = (if i.is_held then 0
                 else imods.foldl (fun q m => m.apply i q) (i.product.price * (i.quantity : Rat)))
            ∧ Cart.item_contribution imods i = 0) := by
  constructor
  · intro h
    exact ⟨by simp [CartItem.get_price, h], by simp [Cart.item_contribution, h]⟩
  · intro h1 h2
    constructor
    · by_cases hh : i.is_held
      · simp [CartItem.get_total_price, hh]
      · simp [CartItem.get_total_price, hh, CartItem.get_price, h1]
    · simp [Cart.item_contribution, h2]

/-- Witness for C4: the amended claim evaluated at an unavailable item and
at an available zero-stock item. -/
theorem availability_and_stock_independent_witness :
    CartItem.get_price unavailable_item = 0
      ∧ Cart.item_contribution [] unavailable_item = 0
      ∧ CartItem.get_total_price [] zero_stock_item = 7 / 2
      ∧ Cart.item_contribution [] zero_stock_item = 0 := by
  have h1 := (availability_and_stock_independent [] unavailable_item).1 rfl
  have h2 := (availability_and_stock_independent [] zero_stock_item).2 rfl rfl
  refine ⟨h1.1, h1.2, ?_, h2.2⟩
  rw [h2.1]
  norm_num [zero_stock_item, mkBook]

/-- C5 (confirmed): resolver merge across authentication.  Starting from
any store in which the identity `u` owns no cart and no stored cart
collides with the next fresh identifier, resolving anonymously with an
empty session creates cart A and stores its identifier in the session;
resolving again, now authenticated as `u`, returns a cart with the same
identifier as A, owned by `u`, with the session cart token removed. -/
theorem resolver_merges_anonymous_cart_on_login (s : Store) (u : Nat)
    (h1 : s.find_by_user u = none)
    (h2 : ∀ c ∈ s.carts, c.pk ≠ s.next_pk) :
    (get_for_request (get_for_request s none ⟨none⟩).2.1 (some u)
        (get_for_request s none ⟨none⟩).2.2).1.pk
        = (get_for_request s none ⟨none⟩).1.pk
      ∧ (get_for_request (get_for_request s none ⟨none⟩).2.1 (some u)
          (get_for_request s none ⟨none⟩).2.2).1.user = some u
      ∧ (get_for_request (get_for_request s none ⟨none⟩).2.1 (some u)
          (get_for_request s none ⟨none⟩).2.2).2.2.cart = none := by
  have hfu : Store.find_by_user
      ⟨s.carts ++ [new_cart s.next_pk none], s.next_pk + 1⟩ u = none := by
    unfold Store.find_by_user at h1 ⊢
    rw [List.find?_append, h1]
    simp [new_cart]
  have hfp : Store.find_by_pk
      ⟨s.carts ++ [new_cart s.next_pk none], s.next_pk + 1⟩ s.next_pk
      = some (new_cart s.next_pk none) := by
    unfold Store.find_by_pk
    rw [List.find?_append]
    have : List.find? (fun c => c.pk == s.next_pk) s.carts = none := by
      rw [List.find?_eq_none]
      intro c hc
      simpa using h2 c hc
    rw [this]
    simp [new_cart]
  simp only [get_for_request, Store.create, new_cart]
  simp only [get_for_request, Store.create, new_cart] at hfu hfp
  simp [hfu, hfp, new_cart]

/-- Witness for C5: the merge at the empty store with identity 1. -/
theorem resolver_merges_anonymous_cart_on_login_witness :
    (get_for_request (get_for_request ⟨[], 0⟩ none ⟨none⟩).2.1 (some 1)
        (get_for_request ⟨[], 0⟩ none ⟨none⟩).2.2).1.pk
        = (get_for_request ⟨[], 0⟩ none ⟨none⟩).1.pk
      ∧ (get_for_request (get_for_request ⟨[], 0⟩ none ⟨none⟩).2.1 (some 1)
          (get_for_request ⟨[], 0⟩ none ⟨none⟩).2.2).1.user = some 1
      ∧ (get_for_request (get_for_request ⟨[], 0⟩ none ⟨none⟩).2.1 (some 1)
          (get_for_request ⟨[], 0⟩ none ⟨none⟩).2.2).2.2.cart = none :=
  resolver_merges_anonymous_cart_on_login ⟨[], 0⟩ 1 rfl (by simp)

/-- C6 (confirmed): the cart aggregate price is memoised.  For every cart,
calling `Cart.get_price` on the cart returned by a first call yields the
same value, the same cart state and zero storage reads (the read count of
the instrumented model). -/
theorem cart_price_memoized (imods : List ItemModifier) (c : Cart) :
    Cart.get_price imods (Cart.get_price imods c).2.1
      = ((Cart.get_price imods c).1, (Cart.get_price imods c).2.1, 0) := by
  unfold Cart.get_price
  cases hc : c.cached_items with
  | some l =>
    cases hl : l.isEmpty with
    | true => simp [Cart.read_cached_items, hc, hl]
    | false =>
      cases hm : c.price_memo <;>
        simp [Cart.read_cached_items, hc, hl, hm]
  | none =>
    cases hl : c.items.isEmpty with
    | true => simp [Cart.read_cached_items, hc, hl]
    | false =>
      cases hm : c.price_memo <;>
        simp [Cart.read_cached_items, hc, hl, hm]

/-- C7 (confirmed): adding a product twice merges into a single item.  For
every cart holding no item for the product, `add p q1` followed by
`add p q2` leaves exactly one cart item for that product, with quantity
`q1 + q2`; the second call returns that item, and the snapshot immediately
reflects the owned collection. -/
theorem cart_add_twice_single_item (c : Cart) (p : Product) (q1 q2 : Nat)
    (h : c.items.find? (fun i => i.product.id == p.id) = none) :
    product_items (((c.add p q1).2).add p q2).2 p
        = [{ product := p, quantity := q1 + q2, is_held := false }]
      ∧ (((c.add p q1).2).add p q2).1
        = { product := p, quantity := q1 + q2, is_held := false }
      ∧ ((((c.add p q1).2).add p q2).2).cached_items
        = some ((((c.add p q1).2).add p q2).2).items := by
  have hall : ∀ i ∈ c.items, (i.product.id == p.id) = false := by
    intro i hi
    have hx := List.find?_eq_none.mp h i hi
    simpa using hx
  have hsome : (c.items
        ++ [({ product := p, quantity := q1, is_held := false } : CartItem)]).find?
      (fun i => i.product.id == p.id)
      = some { product := p, quantity := q1, is_held := false } := by
    rw [List.find?_append, h]
    simp
  have hmap : ∀ (l : List CartItem) (j : CartItem),
      (∀ i ∈ l, (i.product.id == p.id) = false) →
      l.map (fun i => if i.product.id == p.id then j else i) = l := by
    intro l j hl
    induction l with
    | nil => rfl
    | cons a t ih =>
      have ha := hl a (by simp)
      have ht := ih (fun i hi => hl i (by simp [hi]))
      rw [List.map_cons, if_neg (by simp [ha]), ht]
  have hfil : c.items.filter (fun i => i.product.id == p.id) = [] := by
    rw [List.filter_eq_nil_iff]
    intro a ha
    simp [hall a ha]
  simp only [Cart.add, h, Cart.reset_cached_items, hsome]
  refine ⟨?_, by simp, by simp⟩
  simp only [product_items, List.map_append, hmap c.items _ hall,
    List.filter_append, hfil]
  simp

/-- Witness for C7: adding the same shirt with quantities 1 and 5 to a
fresh cart yields the single item of quantity 6, as `test_cart_add`
asserts. -/
theorem cart_add_twice_single_item_witness :
    product_items ((((new_cart 0 none).add (mkShirt 1) 1).2).add (mkShirt 1) 5).2 (mkShirt 1)
        = [{ product := mkShirt 1, quantity := 6, is_held := false }]
      ∧ ((((new_cart 0 none).add (mkShirt 1) 1).2).add (mkShirt 1) 5).1
        = { product := mkShirt 1, quantity := 6, is_held := false }
      ∧ (((((new_cart 0 none).add (mkShirt 1) 1).2).add (mkShirt 1) 5).2).cached_items
        = some (((((new_cart 0 none).add (mkShirt 1) 1).2).add (mkShirt 1) 5).2).items :=
  cart_add_twice_single_item (new_cart 0 none) (mkShirt 1) 1 5 rfl

/-- C8 (confirmed): after `Cart.clear` the owned collection, the snapshot
and the modifier trace are all empty, and — for every cart-modifier chain,
including chains that would move a zero price — both `get_price` and
`get_total_price` return 0 with the trace left empty, i.e. without
invoking any modifier. -/
theorem cart_clear_empties_and_zeroes (cmods : List CartModifier)
    (imods : List ItemModifier) (c : Cart) :
    c.clear.items = [] ∧ c.clear.cached_items = some []
      ∧ c.clear.modifiers = []
      ∧ (Cart.get_price imods c.clear).1 = 0
      ∧ (Cart.get_total_price cmods imods c.clear).1 = 0
      ∧ (Cart.get_total_price cmods imods c.clear).2.modifiers = [] := by
  refine ⟨rfl, rfl, rfl, ?_, ?_, ?_⟩ <;>
    simp [Cart.clear, Cart.get_price, Cart.get_total_price, Cart.read_cached_items]

/-- C9 (confirmed): the snapshot is not kept coherent by the storage
layer.  For every cart with a populated snapshot, a raw storage-level item
creation leaves `cached_items` unchanged, and a subsequent
`reset_cached_items` re-populates it from the owned collection, making the
new item visible. -/
theorem raw_item_creation_bypasses_cache (c : Cart) (p : Product) (q : Nat)
    (l : List CartItem) (h : c.cached_items = some l) :
    (c.items_create p q).cached_items = some l
      ∧ ((c.items_create p q).reset_cached_items).cached_items
        = some (c.items ++ [{ product := p, quantity := q, is_held := false }])
      ∧ ({ product := p, quantity := q, is_held := false } : CartItem)
        ∈ (((c.items_create p q).reset_cached_items).cached_items).getD [] := by
  refine ⟨by simpa [Cart.items_create] using h, rfl, ?_⟩
  simp [Cart.items_create, Cart.reset_cached_items]

/-- Witness for C9: the scenario of `test_reset_cached_items` — a fresh
cart whose snapshot has been read (and is empty), a raw book-item
creation, then a reset. -/
theorem raw_item_creation_bypasses_cache_witness :
    ((((new_cart 0 none).read_cached_items).2).items_create (mkBook 1 true 0) 1).cached_items
        = some []
      ∧ (((((new_cart 0 none).read_cached_items).2).items_create
          (mkBook 1 true 0) 1).reset_cached_items).cached_items
        = some (((new_cart 0 none).read_cached_items).2.items
            ++ [{ product := mkBook 1 true 0, quantity := 1, is_held := false }])
      ∧ ({ product := mkBook 1 true 0, quantity := 1, is_held := false } : CartItem)
        ∈ ((((((new_cart 0 none).read_cached_items).2).items_create
            (mkBook 1 true 0) 1).reset_cached_items).cached_items).getD [] :=
  raw_item_creation_bypasses_cache ((new_cart 0 none).read_cached_items).2
    (mkBook 1 true 0) 1 [] rfl

/-- The partition loop of `get_context_data`, characterised for an
arbitrary starting accumulator: each output list is the corresponding
filter of the input appended to its accumulator. -/
theorem get_context_data_foldl_eq (items : List CartItem)
    (a b d : List CartItem) :
    items.foldl
        (fun ctx i =>
          if i.is_available then
            if i.is_held then (ctx.1, ctx.2.1, ctx.2.2 ++ [i])
            else (ctx.1 ++ [i], ctx.2.1, ctx.2.2)
          else (ctx.1, ctx.2.1 ++ [i], ctx.2.2))
        (a, b, d)
      = (a ++ items.filter (fun i => i.is_available && !i.is_held),
         b ++ items.filter (fun i => !i.is_available),
         d ++ items.filter (fun i => i.is_available && i.is_held)) := by
  induction items generalizing a b d with
  | nil => simp
  | cons i t ih =>
    cases hA : i.is_available <;> cases hH : i.is_held <;>
      simp [List.foldl_cons, List.filter_cons, hA, hH, ih]

/-- The three filters of the partition cover the input exactly once. -/
theorem partition_filter_lengths (items : List CartItem) :
    (items.filter (fun i => i.is_available && !i.is_held)).length
      + (items.filter (fun i => !i.is_available)).length
      + (items.filter (fun i => i.is_available && i.is_held)).length
      = items.length := by
  induction items with
  | nil => rfl
  | cons i t ih =>
    cases hA : i.is_available <;> cases hH : i.is_held <;>
      simp [List.filter_cons, hA, hH] <;> omega

/-- C10 (confirmed): the presentation partition of `CartItemList.get_context_data`
places every item in exactly one of the three lists — available items that
are held go to the held list, other available items to the available list,
and unavailable items (held or not) to the unavailable list — so the held
list only ever contains available items, and the three list lengths sum to
the input length. -/
theorem views_partition_items (items : List CartItem) :
    get_context_data items
        = (items.filter (fun i => i.is_available && !i.is_held),
           items.filter (fun i => !i.is_available),
           items.filter (fun i => i.is_available && i.is_held))
      ∧ (get_context_data items).2.2.all (fun i => i.is_available) = true
      ∧ (get_context_data items).1.length + (get_context_data items).2.1.length
          + (get_context_data items).2.2.length = items.length := by
  have hmain : get_context_data items
      = (items.filter (fun i => i.is_available && !i.is_held),
         items.filter (fun i => !i.is_available),
         items.filter (fun i => i.is_available && i.is_held)) := by
    unfold get_context_data
    simpa using get_context_data_foldl_eq items [] [] []
  refine ⟨hmain, ?_, ?_⟩
  · rw [hmain]
    rw [List.all_eq_true]
    intro x hx
    have := List.of_mem_filter hx
    exact (Bool.and_eq_true _ _).mp this |>.1
  · rw [hmain]
    exact partition_filter_lengths items

end Tinycart
